import Mathlib

set_option autoImplicit false

/-!
Shallow embedding of `src/main.rs` (multigit): a `GitAccountManager` that
provisions a Git identity by generating an SSH key, registering it with the
SSH agent, recording the account in an in-memory registry, and appending to
local/global Git config and SSH client config files.

Modelling conventions:
* The filesystem is a map from path strings to file contents (`FS`).
  Directories are not tracked as contents; `create_dir_all` is recorded in the
  effect trace only.  File operations that the Rust code `.unwrap()`s
  (open/read/write on an ordinary filesystem) are modelled as succeeding.
* External subprocesses (`ssh-keygen`, `ssh-add`) are an oracle (`World`)
  supplying each call's exit status and captured stdout/stderr.  Per the
  documented contract of `ssh-keygen`, a successful invocation writes the
  private and public key files; `World` supplies their contents.
* Rust panics (from `.unwrap()` / `.expect(..)`) are modelled by the
  `Outcome.panicked` constructor carrying the underlying error; a normal
  return is `Outcome.returned`.
* `PathBuf::join` is modelled by `rustJoin`: an absolute (slash-leading)
  right operand replaces the base, otherwise the operand is appended after a
  separator (trailing-separator normalisation is elided; no input in scope
  exercises it).
* Every effect (directory creation, subprocess spawn, file write) is recorded
  in an explicit trace so that "step not performed" claims are statable.
-/

/-- A filesystem: path → file contents, `none` when the file does not exist. -/
abbrev FS : Type := String → Option String

/-- Overwrite/create the file at `p` with contents `c`. -/
def FS.set (fs : FS) (p c : String) : FS :=
  fun q => if q = p then some c else fs q

/-- `OpenOptions::new().create(true).append(true)` followed by `write_all`:
append `c` to the file at `p`, creating it when absent. -/
def FS.append (fs : FS) (p c : String) : FS :=
  fs.set p (((fs p).getD "") ++ c)

/-- Captured result of one subprocess invocation (`std::process::Output`). -/
structure ProcOut where
  success : Bool
  stdout : String
  stderr : String

/-- Oracle for the external world: the outcome of the `ssh-keygen` call, the
outcome of the `ssh-add` call, and the key-file contents `ssh-keygen` writes
on success. -/
structure World where
  keygen : ProcOut
  sshAdd : ProcOut
  privKeyContent : String
  pubKeyContent : String

/-- Error kinds named by the specification, attached to the `io::Error`
messages the code constructs. -/
inductive ErrKind where
  | keyGeneration
  | agentRegistration
  | accountNotFound
  | environment
deriving DecidableEq, Repr

structure Err where
  kind : ErrKind
  msg : String
deriving DecidableEq, Repr

/-- How a Rust function call ends: a panic (from `.unwrap()`/`.expect`) or a
normal return. -/
inductive Outcome where
  | panicked (e : Err)
  | returned (v : Except Err Unit)
deriving Repr

/-- Observable side effects, in order of occurrence. -/
inductive Effect where
  | mkdir (path : String)
  | spawnKeygen (args : List String)
  | spawnSshAdd (keyPath : String)
  | write (path content : String)
deriving DecidableEq, Repr

/-- `struct GitAccount` from the source. -/
structure GitAccount where
  name : String
  email : String
  ssh_key : String
  codebase_dir_path : String
deriving DecidableEq, Repr

/-- The `accounts: HashMap<String, GitAccount>` registry, modelled as an
association list with `HashMap::insert` semantics (replace on key hit). -/
abbrev Registry : Type := List (String × GitAccount)

/-- `HashMap::get` on the association-list model. -/
def lookupAcc : Registry → String → Option GitAccount
  | [], _ => none
  | (k, v) :: t, n => if k = n then some v else lookupAcc t n

/-- `HashMap::insert` on the association-list model: replace the existing
binding for the key if present, otherwise add a new one. -/
def insertAcc : Registry → String → GitAccount → Registry
  | [], k, v => [(k, v)]
  | (k', v') :: t, k, v =>
      if k' = k then (k, v) :: t else (k', v') :: insertAcc t k v

/-- Model of Rust `PathBuf::join` on Unix paths: an absolute right operand
replaces the base. -/
def rustJoin (base arg : String) : String :=
  if arg.data.head? = some '/' then arg else base ++ "/" ++ arg

/-- Substring test on character lists (Rust `str::contains` with a string
pattern): some suffix of the haystack starts with the needle. -/
def hasSubstr : List Char → List Char → Bool
  | [], needle => needle.isPrefixOf ([] : List Char)
  | c :: t, needle => needle.isPrefixOf (c :: t) || hasSubstr t needle

/-- Rust `String::contains(&needle)`: case-sensitive substring check. -/
def strContains (hay needle : String) : Bool :=
  hasSubstr hay.data needle.data

/-- `fn add_account`: build the `GitAccount` and insert it into the registry. -/
def add_account (r : Registry) (name email ssh_key : String)
    (codebase_dir_path : String) : Registry :=
  insertAcc r name ⟨name, email, ssh_key, codebase_dir_path⟩

/-- The argument list passed to `ssh-keygen`. -/
def keygenArgs (email key_file : String) : List String :=
  ["-t", "ed25519", "-C", email, "-f", key_file, "-N", ""]

/-- `fn generate_ssh_key`: create `~/.ssh`, run `ssh-keygen -t ed25519 -C
<email> -f <ssh_dir>/id_ed25519_<name> -N ""`; on non-zero exit return an
error carrying the captured stdout and stderr, on success return the key
path (the key files now exist, per the `ssh-keygen` contract). -/
def generate_ssh_key (home : String) (w : World) (fs : FS)
    (account_name email : String) : Except Err String × FS × List Effect :=
  let ssh_dir := rustJoin home ".ssh"
  let key_file := rustJoin ssh_dir ("id_ed25519_" ++ account_name)
  let tr := [Effect.mkdir ssh_dir, Effect.spawnKeygen (keygenArgs email key_file)]
  if w.keygen.success then
    (Except.ok key_file,
     (fs.set key_file w.privKeyContent).set (key_file ++ ".pub") w.pubKeyContent,
     tr)
  else
    (Except.error ⟨ErrKind.keyGeneration,
       "Failed to generate SSH key: " ++ w.keygen.stdout ++ ", " ++ w.keygen.stderr⟩,
     fs, tr)

/-- `fn add_ssh_agent`: run `ssh-add <key>`; error with captured stdout and
stderr on non-zero exit. -/
def add_ssh_agent (w : World) (ssh_key_file : String) :
    Except Err Unit × List Effect :=
  if w.sshAdd.success then
    (Except.ok (), [Effect.spawnSshAdd ssh_key_file])
  else
    (Except.error ⟨ErrKind.agentRegistration,
       "Failed to add SSH key to agent: " ++ w.sshAdd.stdout ++ ", " ++ w.sshAdd.stderr⟩,
     [Effect.spawnSshAdd ssh_key_file])

/-- The `config_content` format string of `fn setup_local_gitconfig`, verbatim:
note the stray `"` after the email, present in the source. -/
def localConfigContent (a : GitAccount) : String :=
  "[url \"git@github.com-" ++ a.name ++
    ":\"]\n    insteadOf = git@github.com:\n[user]\n    name = " ++ a.name ++
    "\n    email = " ++ a.email ++ "\"\n"

/-- `fn setup_local_gitconfig`: create the codebase directory and append the
config block to `<codebase_dir>/.gitconfig`. -/
def setup_local_gitconfig (fs : FS) (a : GitAccount) :
    Except Err Unit × FS × List Effect :=
  let config_content := localConfigContent a
  let gitconfig_path := rustJoin a.codebase_dir_path ".gitconfig"
  (Except.ok (),
   fs.append gitconfig_path config_content,
   [Effect.mkdir a.codebase_dir_path, Effect.write gitconfig_path config_content])

/-- The `include_if_content` format string of `fn setup_global_gitconfig`. -/
def includeIfContent (codebase_path_str global_gitconfig_path_str : String) : String :=
  "[includeIf \"gitdir/i:" ++ codebase_path_str ++ "\"]\n    path = " ++
    global_gitconfig_path_str ++ "\n\n"

/-- `fn setup_global_gitconfig`: append the `includeIf` stanza to
`<home>/.gitconfig`. -/
def setup_global_gitconfig (home : String) (fs : FS)
    (codebase_path_str global_gitconfig_path_str : String) :
    Except Err Unit × FS × List Effect :=
  let global_gitconfig_path := rustJoin home ".gitconfig"
  let include_if_content := includeIfContent codebase_path_str global_gitconfig_path_str
  (Except.ok (),
   fs.append global_gitconfig_path include_if_content,
   [Effect.write global_gitconfig_path include_if_content])

/-- `fn associate_account_with_dir`: look the account up (`.unwrap()` panics
when absent, modelled as `none`), call `setup_local_gitconfig` and
`setup_global_gitconfig` with both results discarded (`let _ =`), return
`Ok(())`. -/
def associate_account_with_dir (home : String) (r : Registry) (fs : FS)
    (account_name : String) : Option (Except Err Unit × FS × List Effect) :=
  match lookupAcc r account_name with
  | none => none
  | some account =>
      let gitconfig_path := rustJoin account.codebase_dir_path ".gitconfig"
      let s1 := setup_local_gitconfig fs account
      let s2 := setup_global_gitconfig home s1.2.1 account.codebase_dir_path gitconfig_path
      some (Except.ok (), s2.2.1, s1.2.2 ++ s2.2.2)

/-- The `config_content` format string of `fn setup_ssh_config`, verbatim. -/
def hostBlock (host ssh_key : String) : String :=
  "\nHost " ++ host ++
    "\n    HostName github.com\n    User git\n    AddKeysToAgent yes\n    UseKeychain yes\n    IdentityFile " ++
    ssh_key ++ "\n"

/-- `fn setup_ssh_config`: look the account up (`.unwrap()` panics when
absent), read `<home>/.ssh/config` if it exists (empty string otherwise), and
only when no `Host <host>` substring occurs in it append the `Host` block. -/
def setup_ssh_config (home : String) (r : Registry) (fs : FS)
    (name host : String) : Option (Except Err Unit × FS × List Effect) :=
  let ssh_config_path := rustJoin home ".ssh/config"
  match lookupAcc r name with
  | none => none
  | some account =>
      let config_content := hostBlock host account.ssh_key
      let existing_config := (fs ssh_config_path).getD ""
      if strContains existing_config ("Host " ++ host) then
        some (Except.ok (), fs, [])
      else
        some (Except.ok (), fs.append ssh_config_path config_content,
          [Effect.write ssh_config_path config_content])

/-- Result of running `setup_account` (or `main`): final outcome, registry,
filesystem and effect trace. -/
structure RunOut where
  result : Outcome
  registry : Registry
  fs : FS
  trace : List Effect

/-- `fn setup_account`: `generate_ssh_key(..).unwrap()`,
`add_ssh_agent(..).unwrap()`, `add_account`, then
`associate_account_with_dir` and `setup_ssh_config` with results discarded
(`let _ =`), returning `Ok(())`.  The two `.unwrap()`s panic on `Err`. -/
def setup_account (home : String) (r : Registry) (fs : FS) (w : World)
    (name email codebase_dir host : String) : RunOut :=
  let g := generate_ssh_key home w fs name email
  match g.1 with
  | Except.error e => ⟨Outcome.panicked e, r, g.2.1, g.2.2⟩
  | Except.ok ssh_key =>
      let ag := add_ssh_agent w ssh_key
      match ag.1 with
      | Except.error e => ⟨Outcome.panicked e, r, g.2.1, g.2.2 ++ ag.2⟩
      | Except.ok _ =>
          let r1 := add_account r name email ssh_key (rustJoin home codebase_dir)
          match associate_account_with_dir home r1 g.2.1 name with
          | none =>
              ⟨Outcome.panicked ⟨ErrKind.accountNotFound, "Account not found"⟩,
               r1, g.2.1, g.2.2 ++ ag.2⟩
          | some s3 =>
              match setup_ssh_config home r1 s3.2.1 name host with
              | none =>
                  ⟨Outcome.panicked ⟨ErrKind.accountNotFound, "Account not found"⟩,
                   r1, s3.2.1, g.2.2 ++ ag.2 ++ s3.2.2⟩
              | some s4 =>
                  ⟨Outcome.returned (Except.ok ()), r1, s4.2.1,
                   g.2.2 ++ ag.2 ++ s3.2.2 ++ s4.2.2⟩

/-- The process environment: just the `HOME` variable. -/
structure Env where
  home : Option String

/-- `fn main`: `var("HOME").expect("$HOME directory not found")` (panic when
unset, before any other effect), then one hard-coded `setup_account` call
whose result is discarded. -/
def mainRun (env : Env) (w : World) (fs : FS) : RunOut :=
  match env.home with
  | none =>
      ⟨Outcome.panicked ⟨ErrKind.environment, "$HOME directory not found"⟩,
       [], fs, []⟩
  | some home_dir =>
      setup_account home_dir [] fs w "AkhilKamath" "akhilkamath97@gmail.com"
        "/Users/akhil/Code/acc1/" "github.com-pers"

/-! ### Helper lemmas -/

theorem FS.set_same (fs : FS) (p c : String) : (fs.set p c) p = some c := by
  simp [FS.set]

theorem FS.set_ne (fs : FS) (p c q : String) (h : q ≠ p) : (fs.set p c) q = fs q := by
  simp [FS.set, h]

theorem ne_append_pub (s : String) : s ≠ s ++ ".pub" := by
  intro h
  have hlen := congrArg String.length h
  rw [String.length_append] at hlen
  have h4 : (".pub" : String).length = 4 := rfl
  omega

theorem isPrefixOf_append_self (l t : List Char) : l.isPrefixOf (l ++ t) = true := by
  simp [List.isPrefixOf_iff_prefix]

theorem hasSubstr_of_isPrefixOf {n h : List Char} (hp : n.isPrefixOf h = true) :
    hasSubstr h n = true := by
  cases h with
  | nil => simpa [hasSubstr] using hp
  | cons c t => simp [hasSubstr, hp]

theorem hasSubstr_self_append (n t : List Char) : hasSubstr (n ++ t) n = true :=
  hasSubstr_of_isPrefixOf (isPrefixOf_append_self n t)

theorem hasSubstr_cons {h n : List Char} (c : Char) (hs : hasSubstr h n = true) :
    hasSubstr (c :: h) n = true := by
  simp [hasSubstr, hs]

theorem hasSubstr_append_left (a : List Char) {h n : List Char}
    (hs : hasSubstr h n = true) : hasSubstr (a ++ h) n = true := by
  induction a with
  | nil => simpa using hs
  | cons c t ih => simpa [hasSubstr] using Or.inr ih

theorem hasSubstr_append_append (n a b : List Char) :
    hasSubstr (n ++ (a ++ b)) (n ++ a) = true := by
  rw [← List.append_assoc]
  exact hasSubstr_self_append (n ++ a) b

theorem strContains_append_hostBlock (s host key : String) :
    strContains (s ++ hostBlock host key) ("Host " ++ host) = true := by
  unfold strContains hostBlock
  simp only [String.data_append, List.append_assoc]
  apply hasSubstr_append_left
  apply hasSubstr_cons
  exact hasSubstr_append_append _ _ _

theorem localConfigContent_length_pos (a : GitAccount) :
    0 < (localConfigContent a).length := by
  unfold localConfigContent
  simp only [String.length_append]
  have h : 0 < ("[url \"git@github.com-" : String).length := by decide
  omega

theorem includeIfContent_length_pos (cb gc : String) :
    0 < (includeIfContent cb gc).length := by
  unfold includeIfContent
  simp only [String.length_append]
  have h : 0 < ("[includeIf \"gitdir/i:" : String).length := by decide
  omega

theorem mem_keys_insertAcc (r : Registry) (k m : String) (v : GitAccount) :
    m ∈ (insertAcc r k v).map Prod.fst ↔ m ∈ r.map Prod.fst ∨ m = k := by
  induction r with
  | nil => simp [insertAcc]
  | cons p t ih =>
      obtain ⟨k', v'⟩ := p
      by_cases hk : k' = k
      · subst hk
        simp [insertAcc]
        tauto
      · simp [insertAcc, hk, ih]
        tauto

theorem keys_nodup_insertAcc (r : Registry) (k : String) (v : GitAccount)
    (h : (r.map Prod.fst).Nodup) : ((insertAcc r k v).map Prod.fst).Nodup := by
  induction r with
  | nil => simp [insertAcc]
  | cons p t ih =>
      obtain ⟨k', v'⟩ := p
      simp only [List.map_cons, List.nodup_cons] at h
      by_cases hk : k' = k
      · subst hk
        simpa [insertAcc] using h
      · simp only [insertAcc, hk, if_false, List.map_cons, List.nodup_cons]
        refine ⟨?_, ih h.2⟩
        rw [mem_keys_insertAcc]
        rintro (hm | hm)
        · exact h.1 hm
        · exact hk hm

theorem lookupAcc_insertAcc_self (r : Registry) (k : String) (v : GitAccount) :
    lookupAcc (insertAcc r k v) k = some v := by
  induction r with
  | nil => simp [insertAcc, lookupAcc]
  | cons p t ih =>
      obtain ⟨k', v'⟩ := p
      by_cases hk : k' = k
      · subst hk
        simp [insertAcc, lookupAcc]
      · simp [insertAcc, lookupAcc, hk, ih]

theorem lookupAcc_insertAcc_ne (r : Registry) (k m : String) (v : GitAccount)
    (h : m ≠ k) : lookupAcc (insertAcc r k v) m = lookupAcc r m := by
  have hkm : ¬ (k = m) := fun e => h e.symm
  induction r with
  | nil => simp [insertAcc, lookupAcc, hkm]
  | cons p t ih =>
      obtain ⟨k', v'⟩ := p
      by_cases hk : k' = k
      · subst hk
        simp [insertAcc, lookupAcc, hkm]
      · simp [insertAcc, lookupAcc, hk, ih]

/-! ### Concrete scenario data (used by witnesses and the end-to-end run) -/

/-- The empty (fresh) filesystem. -/
def freshFS : FS := fun _ => none

/-- A world in which both subprocesses succeed. -/
def okWorld : World :=
  { keygen := ⟨true, "", ""⟩, sshAdd := ⟨true, "", ""⟩,
    privKeyContent := "PRIVATE-KEY", pubKeyContent := "PUBLIC-KEY" }

/-- The `acc1` account of the end-to-end scenario. -/
def accA : GitAccount :=
  ⟨"acc1", "a@example.com", "/home/u/.ssh/id_ed25519_acc1", "/home/u/Code/acc1"⟩

/-- A filesystem whose `~/.ssh/config` mentions `Host github.com-acc12` (a
longer alias) but holds no block for exactly `github.com-acc1`. -/
def aliasFS : FS := fun p =>
  if p = "/home/u/.ssh/config" then
    some "Host github.com-acc12\n    IdentityFile /x\n"
  else none

/-! ### Claim theorems -/

/-- C3: `setup_ssh_config` is idempotent with respect to its guard: a first
call yields some file state `fs1` (appending the `Host` block exactly once
when no `Host <host>` substring was already present), and a second call with
the same host appends nothing and leaves the file byte-identical (`fs1`
unchanged, empty write trace). -/
theorem setup_ssh_config_idempotent (home : String) (r : Registry) (fs : FS)
    (name host : String) (a : GitAccount) (hl : lookupAcc r name = some a) :
    ∃ fs1 tr1,
      setup_ssh_config home r fs name host = some (Except.ok (), fs1, tr1) ∧
      setup_ssh_config home r fs1 name host = some (Except.ok (), fs1, []) ∧
      (strContains ((fs (rustJoin home ".ssh/config")).getD "") ("Host " ++ host) = false →
        fs1 (rustJoin home ".ssh/config") =
          some (((fs (rustJoin home ".ssh/config")).getD "") ++ hostBlock host a.ssh_key)) := by
  by_cases hg : strContains ((fs (rustJoin home ".ssh/config")).getD "") ("Host " ++ host) = true
  · refine ⟨fs, [], ?_, ?_, ?_⟩
    · simp [setup_ssh_config, hl, hg]
    · simp [setup_ssh_config, hl, hg]
    · intro hfalse
      rw [hg] at hfalse
      exact Bool.noConfusion hfalse
  · rw [Bool.not_eq_true] at hg
    refine ⟨FS.append fs (rustJoin home ".ssh/config") (hostBlock host a.ssh_key),
      [Effect.write (rustJoin home ".ssh/config") (hostBlock host a.ssh_key)], ?_, ?_, ?_⟩
    · simp [setup_ssh_config, hl, hg]
    · have hset : (FS.append fs (rustJoin home ".ssh/config") (hostBlock host a.ssh_key))
          (rustJoin home ".ssh/config")
          = some (((fs (rustJoin home ".ssh/config")).getD "") ++ hostBlock host a.ssh_key) :=
        FS.set_same fs (rustJoin home ".ssh/config") _
      simp [setup_ssh_config, hl, hset, strContains_append_hostBlock]
    · intro _
      exact FS.set_same fs (rustJoin home ".ssh/config") _

/-- Witness for C3 at a concrete input: fresh filesystem, account `acc1`,
host `github.com-acc1`. -/
theorem setup_ssh_config_idempotent_witness :
    ∃ fs1 tr1,
      setup_ssh_config "/home/u" [("acc1", accA)] freshFS "acc1" "github.com-acc1" =
        some (Except.ok (), fs1, tr1) ∧
      setup_ssh_config "/home/u" [("acc1", accA)] fs1 "acc1" "github.com-acc1" =
        some (Except.ok (), fs1, []) ∧
      (strContains ((freshFS (rustJoin "/home/u" ".ssh/config")).getD "")
          ("Host " ++ "github.com-acc1") = false →
        fs1 (rustJoin "/home/u" ".ssh/config") =
          some (((freshFS (rustJoin "/home/u" ".ssh/config")).getD "") ++
            hostBlock "github.com-acc1" accA.ssh_key)) :=
  setup_ssh_config_idempotent "/home/u" [("acc1", accA)] freshFS "acc1"
    "github.com-acc1" accA (by decide)

/-- C10: the duplication guard of `setup_ssh_config` is a plain substring
check over the whole existing file: whenever the existing `~/.ssh/config`
contains the string `Host <host>` anywhere, the call appends nothing and
leaves the filesystem unchanged. -/
theorem setup_ssh_config_guard_is_substring (home : String) (r : Registry)
    (fs : FS) (name host : String) (a : GitAccount)
    (hl : lookupAcc r name = some a)
    (hg : strContains ((fs (rustJoin home ".ssh/config")).getD "")
      ("Host " ++ host) = true) :
    setup_ssh_config home r fs name host = some (Except.ok (), fs, []) := by
  simp [setup_ssh_config, hl, hg]

/-- Witness for C10 at a concrete input: the existing config mentions only
the longer alias `Host github.com-acc12`, yet provisioning host
`github.com-acc1` appends nothing. -/
theorem setup_ssh_config_guard_is_substring_witness :
    setup_ssh_config "/home/u" [("acc1", accA)] aliasFS "acc1" "github.com-acc1" =
      some (Except.ok (), aliasFS, []) :=
  setup_ssh_config_guard_is_substring "/home/u" [("acc1", accA)] aliasFS "acc1"
    "github.com-acc1" accA (by decide) (by decide)

/-- The deterministic key path `<ssh_dir>/id_ed25519_<name>` built by
`generate_ssh_key`. -/
def keyFilePath (home name : String) : String :=
  rustJoin (rustJoin home ".ssh") ("id_ed25519_" ++ name)

/-- A world whose `ssh-keygen` call exits non-zero with captured output. -/
def failKeygenWorld : World :=
  { keygen := ⟨false, "OUT", "ERR"⟩, sshAdd := ⟨true, "", ""⟩,
    privKeyContent := "", pubKeyContent := "" }

/-- C5: on success, `generate_ssh_key` has invoked `ssh-keygen` with
algorithm ed25519, comment equal to the email, empty passphrase and output
path `<ssh_dir>/id_ed25519_<name>`; it returns exactly that deterministic
path, and both the private and the public key file exist there. -/
theorem generate_ssh_key_success (home : String) (w : World) (fs : FS)
    (name email : String) (hs : w.keygen.success = true) :
    generate_ssh_key home w fs name email =
      (Except.ok (keyFilePath home name),
       (fs.set (keyFilePath home name) w.privKeyContent).set
         (keyFilePath home name ++ ".pub") w.pubKeyContent,
       [Effect.mkdir (rustJoin home ".ssh"),
        Effect.spawnKeygen (keygenArgs email (keyFilePath home name))]) ∧
    (generate_ssh_key home w fs name email).2.1 (keyFilePath home name) =
      some w.privKeyContent ∧
    (generate_ssh_key home w fs name email).2.1 (keyFilePath home name ++ ".pub") =
      some w.pubKeyContent := by
  have hgen : generate_ssh_key home w fs name email =
      (Except.ok (keyFilePath home name),
       (fs.set (keyFilePath home name) w.privKeyContent).set
         (keyFilePath home name ++ ".pub") w.pubKeyContent,
       [Effect.mkdir (rustJoin home ".ssh"),
        Effect.spawnKeygen (keygenArgs email (keyFilePath home name))]) := by
    simp [generate_ssh_key, keyFilePath, hs]
  refine ⟨hgen, ?_, ?_⟩
  · rw [hgen]
    show ((fs.set (keyFilePath home name) w.privKeyContent).set
      (keyFilePath home name ++ ".pub") w.pubKeyContent) (keyFilePath home name) =
        some w.privKeyContent
    rw [FS.set_ne _ _ _ _ (ne_append_pub _), FS.set_same]
  · rw [hgen]
    exact FS.set_same _ _ _

/-- Witness for C5 at a concrete input. -/
theorem generate_ssh_key_success_witness :
    generate_ssh_key "/home/u" okWorld freshFS "acc1" "a@example.com" =
      (Except.ok (keyFilePath "/home/u" "acc1"),
       (freshFS.set (keyFilePath "/home/u" "acc1") okWorld.privKeyContent).set
         (keyFilePath "/home/u" "acc1" ++ ".pub") okWorld.pubKeyContent,
       [Effect.mkdir (rustJoin "/home/u" ".ssh"),
        Effect.spawnKeygen (keygenArgs "a@example.com" (keyFilePath "/home/u" "acc1"))]) ∧
    (generate_ssh_key "/home/u" okWorld freshFS "acc1" "a@example.com").2.1
      (keyFilePath "/home/u" "acc1") = some okWorld.privKeyContent ∧
    (generate_ssh_key "/home/u" okWorld freshFS "acc1" "a@example.com").2.1
      (keyFilePath "/home/u" "acc1" ++ ".pub") = some okWorld.pubKeyContent :=
  generate_ssh_key_success "/home/u" okWorld freshFS "acc1" "a@example.com" rfl

/-- C2: when the key-generation subprocess exits non-zero, the run ends with
the key-generation error whose message carries the captured stdout and
stderr, and `setup_account` performs none of the later steps: the registry
and filesystem are unchanged and the trace holds no `ssh-add` spawn and no
config write — only the `.ssh` mkdir and the `ssh-keygen` spawn. -/
theorem keygen_failure_aborts (home : String) (r : Registry) (fs : FS)
    (w : World) (name email cb host : String) (hf : w.keygen.success = false) :
    setup_account home r fs w name email cb host =
      ⟨Outcome.panicked ⟨ErrKind.keyGeneration,
         "Failed to generate SSH key: " ++ w.keygen.stdout ++ ", " ++ w.keygen.stderr⟩,
       r, fs,
       [Effect.mkdir (rustJoin home ".ssh"),
        Effect.spawnKeygen (keygenArgs email (keyFilePath home name))]⟩ ∧
    ∃ pre mid,
      "Failed to generate SSH key: " ++ w.keygen.stdout ++ ", " ++ w.keygen.stderr =
        pre ++ w.keygen.stdout ++ mid ++ w.keygen.stderr := by
  constructor
  · simp [setup_account, generate_ssh_key, keyFilePath, hf]
  · exact ⟨"Failed to generate SSH key: ", ", ", rfl⟩

/-- Witness for C2 at a concrete input: `ssh-keygen` fails with stdout
`OUT` and stderr `ERR`. -/
theorem keygen_failure_aborts_witness :
    setup_account "/home/u" [] freshFS failKeygenWorld "acc1" "a@example.com"
        "/home/u/Code/acc1" "github.com-acc1" =
      ⟨Outcome.panicked ⟨ErrKind.keyGeneration,
         "Failed to generate SSH key: " ++ failKeygenWorld.keygen.stdout ++ ", " ++
           failKeygenWorld.keygen.stderr⟩,
       [], freshFS,
       [Effect.mkdir (rustJoin "/home/u" ".ssh"),
        Effect.spawnKeygen (keygenArgs "a@example.com" (keyFilePath "/home/u" "acc1"))]⟩ ∧
    ∃ pre mid,
      "Failed to generate SSH key: " ++ failKeygenWorld.keygen.stdout ++ ", " ++
          failKeygenWorld.keygen.stderr =
        pre ++ failKeygenWorld.keygen.stdout ++ mid ++ failKeygenWorld.keygen.stderr :=
  keygen_failure_aborts "/home/u" [] freshFS failKeygenWorld "acc1" "a@example.com"
    "/home/u/Code/acc1" "github.com-acc1" rfl

/-- C4: when the `HOME` environment variable is unset, `main` fails
immediately with the environment error: the effect trace is empty (no
subprocess was invoked) and the filesystem is untouched (no file written). -/
theorem main_missing_home (env : Env) (w : World) (fs : FS)
    (h : env.home = none) :
    mainRun env w fs =
      ⟨Outcome.panicked ⟨ErrKind.environment, "$HOME directory not found"⟩,
       [], fs, []⟩ := by
  obtain ⟨eh⟩ := env
  cases eh with
  | none => rfl
  | some s => exact Option.noConfusion h

/-- Witness for C4 at a concrete input. -/
theorem main_missing_home_witness :
    mainRun ⟨none⟩ okWorld freshFS =
      ⟨Outcome.panicked ⟨ErrKind.environment, "$HOME directory not found"⟩,
       [], freshFS, []⟩ :=
  main_missing_home ⟨none⟩ okWorld freshFS rfl

/-- A filesystem whose local and global Git config files are already
populated. -/
def popFS : FS := fun p =>
  if p = "/home/u/Code/acc1/.gitconfig" then some "LOCAL-OLD\n"
  else if p = "/home/u/.gitconfig" then some "GLOBAL-OLD\n"
  else none

/-- C6: the local and global Git config writes are append-only: on an
already-populated target file one provisioning call strictly increases the
file length, the prior content remains a byte-for-byte prefix, and
re-running the local write duplicates the appended block. -/
theorem gitconfig_writes_append_only (home cb gc priorL priorG : String)
    (fs : FS) (a : GitAccount)
    (hL : fs (rustJoin a.codebase_dir_path ".gitconfig") = some priorL)
    (hG : fs (rustJoin home ".gitconfig") = some priorG) :
    (setup_local_gitconfig fs a).2.1 (rustJoin a.codebase_dir_path ".gitconfig") =
      some (priorL ++ localConfigContent a) ∧
    priorL.length < (priorL ++ localConfigContent a).length ∧
    priorL.data <+: (priorL ++ localConfigContent a).data ∧
    (setup_global_gitconfig home fs cb gc).2.1 (rustJoin home ".gitconfig") =
      some (priorG ++ includeIfContent cb gc) ∧
    priorG.length < (priorG ++ includeIfContent cb gc).length ∧
    priorG.data <+: (priorG ++ includeIfContent cb gc).data ∧
    (setup_local_gitconfig (setup_local_gitconfig fs a).2.1 a).2.1
        (rustJoin a.codebase_dir_path ".gitconfig") =
      some ((priorL ++ localConfigContent a) ++ localConfigContent a) := by
  refine ⟨?_, ?_, ?_, ?_, ?_, ?_, ?_⟩
  · simp [setup_local_gitconfig, FS.append, FS.set_same, hL]
  · have := localConfigContent_length_pos a
    rw [String.length_append]
    omega
  · simp [String.data_append]
  · simp [setup_global_gitconfig, FS.append, FS.set_same, hG]
  · have := includeIfContent_length_pos cb gc
    rw [String.length_append]
    omega
  · simp [String.data_append]
  · simp [setup_local_gitconfig, FS.append, FS.set_same, hL]

/-- Witness for C6 at a concrete input: both config files already populated. -/
theorem gitconfig_writes_append_only_witness :
    (setup_local_gitconfig popFS accA).2.1 (rustJoin accA.codebase_dir_path ".gitconfig") =
      some ("LOCAL-OLD\n" ++ localConfigContent accA) ∧
    ("LOCAL-OLD\n" : String).length < ("LOCAL-OLD\n" ++ localConfigContent accA).length ∧
    ("LOCAL-OLD\n" : String).data <+: ("LOCAL-OLD\n" ++ localConfigContent accA).data ∧
    (setup_global_gitconfig "/home/u" popFS "/home/u/Code/acc1"
        "/home/u/Code/acc1/.gitconfig").2.1 (rustJoin "/home/u" ".gitconfig") =
      some ("GLOBAL-OLD\n" ++ includeIfContent "/home/u/Code/acc1" "/home/u/Code/acc1/.gitconfig") ∧
    ("GLOBAL-OLD\n" : String).length <
      ("GLOBAL-OLD\n" ++ includeIfContent "/home/u/Code/acc1" "/home/u/Code/acc1/.gitconfig").length ∧
    ("GLOBAL-OLD\n" : String).data <+:
      ("GLOBAL-OLD\n" ++ includeIfContent "/home/u/Code/acc1" "/home/u/Code/acc1/.gitconfig").data ∧
    (setup_local_gitconfig (setup_local_gitconfig popFS accA).2.1 accA).2.1
        (rustJoin accA.codebase_dir_path ".gitconfig") =
      some (("LOCAL-OLD\n" ++ localConfigContent accA) ++ localConfigContent accA) :=
  gitconfig_writes_append_only "/home/u" "/home/u/Code/acc1"
    "/home/u/Code/acc1/.gitconfig" "LOCAL-OLD\n" "GLOBAL-OLD\n" popFS accA
    (by decide) (by decide)

/-- A world whose `ssh-keygen` call succeeds but whose `ssh-add` call exits
non-zero. -/
def failAgentWorld : World :=
  { keygen := ⟨true, "", ""⟩, sshAdd := ⟨false, "AOUT", "AERR"⟩,
    privKeyContent := "PRIVATE-KEY", pubKeyContent := "PUBLIC-KEY" }

/-- C7: when the `ssh-add` subprocess exits non-zero, the run ends with the
agent-registration error, and the key files created by the preceding
key-generation step remain on disk (no rollback). -/
theorem agent_failure_keeps_key_files (home : String) (r : Registry) (fs : FS)
    (w : World) (name email cb host : String)
    (hk : w.keygen.success = true) (ha : w.sshAdd.success = false) :
    (setup_account home r fs w name email cb host).result =
      Outcome.panicked ⟨ErrKind.agentRegistration,
        "Failed to add SSH key to agent: " ++ w.sshAdd.stdout ++ ", " ++ w.sshAdd.stderr⟩ ∧
    (setup_account home r fs w name email cb host).fs (keyFilePath home name) =
      some w.privKeyContent ∧
    (setup_account home r fs w name email cb host).fs (keyFilePath home name ++ ".pub") =
      some w.pubKeyContent := by
  have hacct : setup_account home r fs w name email cb host =
      ⟨Outcome.panicked ⟨ErrKind.agentRegistration,
         "Failed to add SSH key to agent: " ++ w.sshAdd.stdout ++ ", " ++ w.sshAdd.stderr⟩,
       r,
       (fs.set (keyFilePath home name) w.privKeyContent).set
         (keyFilePath home name ++ ".pub") w.pubKeyContent,
       [Effect.mkdir (rustJoin home ".ssh"),
        Effect.spawnKeygen (keygenArgs email (keyFilePath home name)),
        Effect.spawnSshAdd (keyFilePath home name)]⟩ := by
    simp [setup_account, generate_ssh_key, add_ssh_agent, keyFilePath, hk, ha]
  rw [hacct]
  refine ⟨rfl, ?_, FS.set_same _ _ _⟩
  show ((fs.set (keyFilePath home name) w.privKeyContent).set
    (keyFilePath home name ++ ".pub") w.pubKeyContent) (keyFilePath home name) =
      some w.privKeyContent
  rw [FS.set_ne _ _ _ _ (ne_append_pub _), FS.set_same]

/-- Witness for C7 at a concrete input: `ssh-add` fails after a successful
key generation; the key files are still present. -/
theorem agent_failure_keeps_key_files_witness :
    (setup_account "/home/u" [] freshFS failAgentWorld "acc1" "a@example.com"
        "/home/u/Code/acc1" "github.com-acc1").result =
      Outcome.panicked ⟨ErrKind.agentRegistration,
        "Failed to add SSH key to agent: " ++ failAgentWorld.sshAdd.stdout ++ ", " ++
          failAgentWorld.sshAdd.stderr⟩ ∧
    (setup_account "/home/u" [] freshFS failAgentWorld "acc1" "a@example.com"
        "/home/u/Code/acc1" "github.com-acc1").fs (keyFilePath "/home/u" "acc1") =
      some failAgentWorld.privKeyContent ∧
    (setup_account "/home/u" [] freshFS failAgentWorld "acc1" "a@example.com"
        "/home/u/Code/acc1" "github.com-acc1").fs (keyFilePath "/home/u" "acc1" ++ ".pub") =
      some failAgentWorld.pubKeyContent :=
  agent_failure_keeps_key_files "/home/u" [] freshFS failAgentWorld "acc1"
    "a@example.com" "/home/u/Code/acc1" "github.com-acc1" rfl rfl

/-- C8: the registry maps each name to at most one account (distinct keys
are preserved by insertion); inserting under a name already present replaces
the previous account — the lookup at that name yields the new account, every
other name is unaffected, and no error is raised (insertion is total). -/
theorem add_account_last_write_wins (r : Registry) (name email key cb : String)
    (hnd : (r.map Prod.fst).Nodup) :
    ((add_account r name email key cb).map Prod.fst).Nodup ∧
    lookupAcc (add_account r name email key cb) name = some ⟨name, email, key, cb⟩ ∧
    (∀ m, m ≠ name → lookupAcc (add_account r name email key cb) m = lookupAcc r m) := by
  refine ⟨keys_nodup_insertAcc r name _ hnd, lookupAcc_insertAcc_self r name _, ?_⟩
  intro m hm
  exact lookupAcc_insertAcc_ne r name m _ hm

/-- Witness for C8 at a concrete input: inserting `acc1` over an existing
`acc1` binding overwrites it. -/
theorem add_account_last_write_wins_witness :
    ((add_account [("acc1", accA)] "acc1" "b@example.com" "/k" "/cb").map Prod.fst).Nodup ∧
    lookupAcc (add_account [("acc1", accA)] "acc1" "b@example.com" "/k" "/cb") "acc1" =
      some ⟨"acc1", "b@example.com", "/k", "/cb"⟩ ∧
    (∀ m, m ≠ "acc1" →
      lookupAcc (add_account [("acc1", accA)] "acc1" "b@example.com" "/k" "/cb") m =
        lookupAcc [("acc1", accA)] m) :=
  add_account_last_write_wins [("acc1", accA)] "acc1" "b@example.com" "/k" "/cb"
    (by decide)

/-- C9: whenever `setup_account` returns a value at all (as opposed to
panicking in one of its `.unwrap()`s), the value is `Ok(())`: the results of
`associate_account_with_dir` and `setup_ssh_config` are discarded by
`let _ =` and never surface in the return value. -/
theorem setup_account_returns_ok (home : String) (r : Registry) (fs : FS)
    (w : World) (name email cb host : String) (v : Except Err Unit)
    (h : (setup_account home r fs w name email cb host).result = Outcome.returned v) :
    v = Except.ok () := by
  unfold setup_account at h
  simp only [] at h
  split at h
  · simp at h
  · split at h
    · simp at h
    · split at h
      · simp at h
      · split at h
        · simp at h
        · simp at h
          exact h.symm

/-- Witness for C9 at a concrete input: the fully successful run returns
`Ok(())`. -/
theorem setup_account_returns_ok_witness : (Except.ok () : Except Err Unit) = Except.ok () :=
  setup_account_returns_ok "/home/u" [] freshFS okWorld "acc1" "a@example.com"
    "/home/u/Code/acc1" "github.com-acc1" (Except.ok ()) rfl

/-- The end-to-end scenario run of the claim: provisioning `acc1` (email
`a@example.com`, codebase `/home/u/Code/acc1`, host `github.com-acc1`)
against a fresh home directory `/home/u`, with both subprocesses
succeeding. -/
def c1Run : RunOut :=
  setup_account "/home/u" [] freshFS okWorld "acc1" "a@example.com"
    "/home/u/Code/acc1" "github.com-acc1"

/-- C1 (evaluation at the claim's scenario): the run produces the key files,
the `includeIf` stanza referencing the local config path, and the `Host
github.com-acc1` block with the generated key as `IdentityFile`, exactly as
claimed — but the local `.gitconfig` is not well-formed INI: the code's
format string appends a stray `"` after the email, so the `[user]` email
line ends in `a@example.com"` rather than ending exactly with the email
address. -/
theorem c1_end_to_end_stray_quote :
    c1Run.fs "/home/u/.ssh/id_ed25519_acc1" = some "PRIVATE-KEY" ∧
    c1Run.fs "/home/u/.ssh/id_ed25519_acc1.pub" = some "PUBLIC-KEY" ∧
    c1Run.fs "/home/u/Code/acc1/.gitconfig" =
      some "[url \"git@github.com-acc1:\"]\n    insteadOf = git@github.com:\n[user]\n    name = acc1\n    email = a@example.com\"\n" ∧
    c1Run.fs "/home/u/.gitconfig" =
      some "[includeIf \"gitdir/i:/home/u/Code/acc1\"]\n    path = /home/u/Code/acc1/.gitconfig\n\n" ∧
    c1Run.fs "/home/u/.ssh/config" =
      some "\nHost github.com-acc1\n    HostName github.com\n    User git\n    AddKeysToAgent yes\n    UseKeychain yes\n    IdentityFile /home/u/.ssh/id_ed25519_acc1\n" ∧
    (("a@example.com\"\n" : String).data.isSuffixOf
      ((c1Run.fs "/home/u/Code/acc1/.gitconfig").getD "").data) = true ∧
    (("a@example.com\n" : String).data.isSuffixOf
      ((c1Run.fs "/home/u/Code/acc1/.gitconfig").getD "").data) = false := by
  decide
